import Mathlib

/-
Verification of the reconciliation core of cloudflare-updater.

The definitions below are a shallow embedding of the TypeScript sources:
  src/ip.ts        (public IP resolution)
  src/cloudflare.ts (provider client parameter construction)
  src/updater.ts   (updateDNSRecords, updateAccessPolicies, startUpdateLoop,
                    runSingleUpdate and the presenter classification)
Network effects are modelled by environments (DnsEnv, AccessEnv) supplying
the outcome of every provider call, and the reconciler functions additionally
return the list of provider calls they issued.
-/

namespace Updater

/-- JavaScript truthiness of an optional string: undefined and the empty
string are falsy, every other string is truthy. -/
def truthy : Option String → Bool
  | none => false
  | some s => !(s == "")

/-- Models the JS idiom `x || undefined`: a null/empty value becomes
undefined. Used by getPublicIPs on the raw lookup results. -/
def orUndefined : Option String → Option String
  | none => none
  | some s => if s == "" then none else some s

/-- Membership of a character in a character list, as a boolean; models
JS String.prototype.includes for a one-character needle. -/
def charIn (c : Char) : List Char → Bool
  | [] => false
  | x :: xs => x == c || charIn c xs

/-- Models `s.includes(c)` for a single-character needle. -/
def jsIncludes (s : String) (c : Char) : Bool := charIn c s.data

/-- Worker for jsSplit: splits a character list at every occurrence of the
separator, accumulating the current segment in reverse. -/
def splitCharAux (c : Char) : List Char → List Char → List (List Char)
  | [], cur => [cur.reverse]
  | x :: xs, cur =>
    if x == c then cur.reverse :: splitCharAux c xs []
    else splitCharAux c xs (x :: cur)

/-- Models `s.split(c)` for a one-character separator: the empty string
splits to a single empty segment, and a trailing separator yields a final
empty segment, as in JavaScript. -/
def jsSplit (s : String) (c : Char) : List String :=
  (splitCharAux c s.data []).map String.mk

/-- Models the catch clause `error instanceof Error ? error.message :
'Unknown error'`: a thrown value is either an Error carrying a message
(some m) or a non-Error value (none). -/
def errMessage : Option String → String
  | some m => m
  | none => "Unknown error"

/-- A thrown JavaScript value as seen by a catch clause: some message when
it is an Error, none otherwise. -/
abbrev Thrown := Option String

/-! ### ip.ts -/

/-- getPublicIPv4 from src/ip.ts: returns the lookup result, or null when
the underlying lookup throws. The lookup outcome is the input. -/
def getPublicIPv4 (lookup : Except String String) : Option String :=
  match lookup with
  | .ok s => some s
  | .error _ => none

/-- getPublicIPv6 from src/ip.ts: same shape as getPublicIPv4. -/
def getPublicIPv6 (lookup : Except String String) : Option String :=
  match lookup with
  | .ok s => some s
  | .error _ => none

/-- The PublicIP interface of src/ip.ts. -/
structure PublicIP where
  ipv4 : Option String := none
  ipv6 : Option String := none
deriving Repr, DecidableEq

/-- getPublicIPs from src/ip.ts: both lookups run via Promise.all (their
outcomes are independent inputs), each null result is mapped to undefined
by the `v || undefined` idiom, and no failure propagates. -/
def getPublicIPs (lookup4 lookup6 : Except String String) : PublicIP :=
  { ipv4 := orUndefined (getPublicIPv4 lookup4)
    ipv6 := orUndefined (getPublicIPv6 lookup6) }

/-! ### Data model (config.ts / cloudflare.ts) -/

/-- A DNS record as returned by CloudflareService.getDNSRecords. -/
structure DNSRecord where
  id : String
  type : String
  name : String
  content : String
  proxied : Bool
  ttl : Nat
deriving Repr, DecidableEq

/-- A configured zone (config.ts ZoneConfig). -/
structure ZoneConfig where
  zoneId : String
  zoneName : String
  selectedRecordIds : List String
deriving Repr, DecidableEq

/-- A configured access policy (config.ts AccessPolicyConfig). -/
structure AccessPolicyConfig where
  appId : String
  appName : String
  policyId : String
  policyName : String
deriving Repr, DecidableEq

/-- The persisted configuration (config.ts Config); fields irrelevant to
the reconciler (email, webhook URLs) are omitted. -/
structure Config where
  apiKey : String
  accountId : Option String := none
  zones : List ZoneConfig := []
  accessPolicies : Option (List AccessPolicyConfig) := none
  updateInterval : Option Nat := none
deriving Repr, DecidableEq

/-- One include/exclude/require entry of an access policy
(cloudflare.ts AccessPolicyInclude): an optional IP literal and an
optional IP-list reference. -/
structure AccessPolicyInclude where
  ip : Option String := none
  ipList : Option String := none
deriving Repr, DecidableEq

/-- Access policy decision (cloudflare.ts AccessDecision). -/
inductive AccessDecision
  | allow | deny | nonIdentity | bypass
deriving Repr, DecidableEq

/-- An access policy as returned by CloudflareService.getAccessPolicies. -/
structure AccessPolicy where
  id : String
  name : String
  decision : AccessDecision
  includeList : List AccessPolicyInclude
  excludeList : Option (List AccessPolicyInclude) := none
  requireList : Option (List AccessPolicyInclude) := none
  reusable : Bool := false
deriving Repr, DecidableEq

/-- Per-record result of a DNS reconciliation pass (updater.ts
UpdateResult). -/
structure UpdateResult where
  zoneId : String
  zoneName : String
  recordId : String
  recordName : String
  oldIP : String
  newIP : String
  success : Bool
  error : Option String := none
deriving Repr, DecidableEq

/-- Per-policy result of an access reconciliation pass (updater.ts
AccessUpdateResult). -/
structure AccessUpdateResult where
  appId : String
  appName : String
  policyId : String
  policyName : String
  oldIP : String
  newIP : String
  success : Bool
  error : Option String := none
deriving Repr, DecidableEq

/-! ### cloudflare.ts parameter construction -/

/-- The params record CloudflareService.updateDNSRecord hands to the HTTP
client; proxied is only attached for A/AAAA records. -/
structure DNSUpdateParams where
  zoneId : String
  type : String
  name : String
  content : String
  ttl : Nat
  proxied : Option Bool := none
deriving Repr, DecidableEq

/-- Parameter construction of CloudflareService.updateDNSRecord. -/
def buildDNSUpdateParams (zoneId content name type : String) (proxied : Bool)
    (ttl : Nat) : DNSUpdateParams :=
  { zoneId := zoneId, type := type, name := name, content := content, ttl := ttl
    proxied := if type == "A" || type == "AAAA" then some proxied else none }

/-- The include rewrite of CloudflareService.updateAccessPolicy: every
entry carrying an IP literal is replaced by a fresh entry holding only the
new IP; other entries pass through unchanged. -/
def updatedIncludes (incs : List AccessPolicyInclude) (newIp : String) :
    List AccessPolicyInclude :=
  incs.map (fun inc => if inc.ip.isSome then { ip := some newIp } else inc)

/-- The params record sent by CloudflareService.updateAccessPolicy. -/
structure AccessPolicyUpdateParams where
  accountId : String
  decision : AccessDecision
  includeList : List AccessPolicyInclude
  excludeList : Option (List AccessPolicyInclude) := none
  requireList : Option (List AccessPolicyInclude) := none
  name : Option String := none
deriving Repr, DecidableEq

/-- The two submission shapes of CloudflareService.updateAccessPolicy:
reusable policies go to the account-scoped endpoint (carrying the policy
name), application policies to the app-scoped endpoint. -/
inductive AccessUpdateRequest
  | reusable (policyId : String) (params : AccessPolicyUpdateParams)
  | appScoped (appId policyId : String) (params : AccessPolicyUpdateParams)
deriving Repr, DecidableEq

/-- Endpoint selection and parameter construction of
CloudflareService.updateAccessPolicy, keyed on the policy's reusable flag. -/
def buildAccessUpdateRequest (accountId appId policyId newIp : String)
    (policyData : AccessPolicy) : AccessUpdateRequest :=
  if policyData.reusable then
    .reusable policyId
      { accountId := accountId, decision := policyData.decision
        includeList := updatedIncludes policyData.includeList newIp
        excludeList := policyData.excludeList
        requireList := policyData.requireList
        name := some policyData.name }
  else
    .appScoped appId policyId
      { accountId := accountId, decision := policyData.decision
        includeList := updatedIncludes policyData.includeList newIp
        excludeList := policyData.excludeList
        requireList := policyData.requireList }

/-! ### updater.ts — DNS record reconciliation -/

/-- Arguments of one cfService.updateDNSRecord call issued by the
reconciler. -/
structure UpdateCall where
  zoneId : String
  recordId : String
  content : String
  name : String
  type : String
  proxied : Bool
  ttl : Nat
deriving Repr, DecidableEq

/-- Provider environment for a DNS pass: the outcome of each record
listing and of each update call. -/
structure DnsEnv where
  listA : String → Except Thrown (List DNSRecord)
  listAAAA : String → Except Thrown (List DNSRecord)
  update : UpdateCall → Option Thrown

/-- The Promise.all of the two per-zone listings in updateDNSRecords: if
either listing throws, the joined fetch throws. -/
def listBoth (env : DnsEnv) (zoneId : String) : Except Thrown (List DNSRecord) := do
  let aRecords ← env.listA zoneId
  let aaaaRecords ← env.listAAAA zoneId
  pure (aRecords ++ aaaaRecords)

/-- Candidate selection in updateDNSRecords: the resolved IPv4 for a
truthy A record, the resolved IPv6 for a truthy AAAA record, otherwise
undefined. -/
def candidateIP (ipv4 ipv6 : Option String) (record : DNSRecord) : Option String :=
  if record.type == "A" && truthy ipv4 then ipv4
  else if record.type == "AAAA" && truthy ipv6 then ipv6
  else none

/-- Body of the per-record loop of updateDNSRecords: skip with a failed
result when no address of the record's family resolved, succeed without a
provider call when the content already matches, otherwise issue the update
call and record its outcome. Returns the record's result and the provider
calls it issued. -/
def recordStep (env : DnsEnv) (ipv4 ipv6 : Option String) (zone : ZoneConfig)
    (record : DNSRecord) : UpdateResult × List UpdateCall :=
  let currentIP := record.content
  match candidateIP ipv4 ipv6 record with
  | none =>
    ({ zoneId := zone.zoneId, zoneName := zone.zoneName, recordId := record.id
       recordName := record.name, oldIP := currentIP, newIP := currentIP
       success := false
       error := some ("No " ++ (if record.type == "A" then "IPv4" else "IPv6")
         ++ " address available") }, [])
  | some newIP =>
    if currentIP == newIP then
      ({ zoneId := zone.zoneId, zoneName := zone.zoneName, recordId := record.id
         recordName := record.name, oldIP := currentIP, newIP := newIP
         success := true, error := none }, [])
    else
      let call : UpdateCall :=
        { zoneId := zone.zoneId, recordId := record.id, content := newIP
          name := record.name, type := record.type, proxied := record.proxied
          ttl := record.ttl }
      match env.update call with
      | none =>
        ({ zoneId := zone.zoneId, zoneName := zone.zoneName, recordId := record.id
           recordName := record.name, oldIP := currentIP, newIP := newIP
           success := true, error := none }, [call])
      | some t =>
        ({ zoneId := zone.zoneId, zoneName := zone.zoneName, recordId := record.id
           recordName := record.name, oldIP := currentIP, newIP := newIP
           success := false, error := some (errMessage t) }, [call])

/-- The per-record loop over the selected records of one zone. -/
def recordsLoop (env : DnsEnv) (ipv4 ipv6 : Option String) (zone : ZoneConfig) :
    List DNSRecord → List UpdateResult × List UpdateCall
  | [] => ([], [])
  | r :: rs =>
    let step := recordStep env ipv4 ipv6 zone r
    let rest := recordsLoop env ipv4 ipv6 zone rs
    (step.1 :: rest.1, step.2 ++ rest.2)

/-- One zone of updateDNSRecords: list A and AAAA records, filter to the
configured ids, process each selected record. A listing failure is caught
and logged, contributing no results. -/
def zoneStep (env : DnsEnv) (ipv4 ipv6 : Option String) (zone : ZoneConfig) :
    List UpdateResult × List UpdateCall :=
  match listBoth env zone.zoneId with
  | .error _ => ([], [])
  | .ok allRecords =>
    let selectedRecords := allRecords.filter
      (fun r => zone.selectedRecordIds.contains r.id)
    recordsLoop env ipv4 ipv6 zone selectedRecords

/-- The per-zone loop of updateDNSRecords. -/
def zonesLoop (env : DnsEnv) (ipv4 ipv6 : Option String) :
    List ZoneConfig → List UpdateResult × List UpdateCall
  | [] => ([], [])
  | z :: zs =>
    let step := zoneStep env ipv4 ipv6 z
    let rest := zonesLoop env ipv4 ipv6 zs
    (step.1 ++ rest.1, step.2 ++ rest.2)

/-- updateDNSRecords from updater.ts: throws "No configuration found"
when no configuration loads, otherwise runs every configured zone and
returns the accumulated results together with the update calls issued. -/
def updateDNSRecords (env : DnsEnv) (config? : Option Config)
    (ipv4 ipv6 : Option String) :
    Except String (List UpdateResult × List UpdateCall) :=
  match config? with
  | none => .error "No configuration found"
  | some config => .ok (zonesLoop env ipv4 ipv6 config.zones)

/-! ### updater.ts — access policy reconciliation -/

/-- normalizeIp from updater.ts: strips a CIDR suffix (text after the
first slash) for comparison; falsy inputs normalize to undefined. -/
def normalizeIp : Option String → Option String
  | none => none
  | some ip => if ip == "" then none else some ((jsSplit ip '/').headD "")

/-- The first include entry of a policy carrying an IP literal:
`policy.include.find((inc) => inc.ip)?.ip?.ip`. -/
def firstIpInclude (incs : List AccessPolicyInclude) : Option String :=
  (incs.find? (fun inc => inc.ip.isSome)).bind (fun inc => inc.ip)

/-- A network call issued by updateAccessPolicies: the public IP
resolution, a per-app policy listing, or a policy update with the
submitted IP value. -/
inductive NetCall
  | resolveIPs
  | listPolicies (accountId appId : String)
  | updatePolicy (accountId appId policyId newIp : String)
deriving Repr, DecidableEq

/-- Provider environment for an access pass: the resolved public IPv4 and
the outcome of each listing and update call. -/
structure AccessEnv where
  resolvedIPv4 : Option String
  listPolicies : String → String → Except Thrown (List AccessPolicy)
  update : AccessUpdateRequest → Option Thrown

/-- Body of the per-policy loop of updateAccessPolicies: locate the
configured policy among the fetched ones, compare current and candidate
IPs with CIDR suffixes stripped, and on a difference submit the candidate
with the current value's suffix re-attached. Returns the policy's result
and the update calls it issued. -/
def policyStep (env : AccessEnv) (accountId appId appName ipv4 : String)
    (policies : List AccessPolicy) (configPolicy : AccessPolicyConfig) :
    AccessUpdateResult × List NetCall :=
  match policies.find? (fun p => p.id == configPolicy.policyId) with
  | none =>
    ({ appId := appId, appName := appName, policyId := configPolicy.policyId
       policyName := configPolicy.policyName, oldIP := "unknown", newIP := ipv4
       success := false, error := some "Policy not found" }, [])
  | some policy =>
    let rawPolicyIp := firstIpInclude policy.includeList
    let currentIp := if truthy rawPolicyIp then rawPolicyIp.getD "" else "unknown"
    let normalizedCurrent := normalizeIp rawPolicyIp
    let normalizedNew := normalizeIp (some ipv4)
    let cidrSuffix : Option String :=
      if truthy rawPolicyIp && jsIncludes (rawPolicyIp.getD "") '/' then
        some ((jsSplit (rawPolicyIp.getD "") '/').getD 1 "")
      else none
    let newPolicyIp :=
      if truthy cidrSuffix then ipv4 ++ "/" ++ cidrSuffix.getD "" else ipv4
    if truthy normalizedCurrent && truthy normalizedNew &&
        (normalizedCurrent.getD "" == normalizedNew.getD "") then
      ({ appId := appId, appName := appName, policyId := policy.id
         policyName := policy.name, oldIP := currentIp, newIP := newPolicyIp
         success := true, error := none }, [])
    else
      let req := buildAccessUpdateRequest accountId appId policy.id newPolicyIp policy
      match env.update req with
      | none =>
        ({ appId := appId, appName := appName, policyId := policy.id
           policyName := policy.name, oldIP := currentIp, newIP := newPolicyIp
           success := true, error := none },
         [NetCall.updatePolicy accountId appId policy.id newPolicyIp])
      | some t =>
        ({ appId := appId, appName := appName, policyId := policy.id
           policyName := policy.name, oldIP := currentIp, newIP := ipv4
           success := false, error := some (errMessage t) },
         [NetCall.updatePolicy accountId appId policy.id newPolicyIp])

/-- The per-policy loop over one app group's configured policies. -/
def policiesLoop (env : AccessEnv) (accountId appId appName ipv4 : String)
    (policies : List AccessPolicy) :
    List AccessPolicyConfig → List AccessUpdateResult × List NetCall
  | [] => ([], [])
  | cp :: cps =>
    let step := policyStep env accountId appId appName ipv4 policies cp
    let rest := policiesLoop env accountId appId appName ipv4 policies cps
    (step.1 :: rest.1, step.2 ++ rest.2)

/-- The app name attached to a group: that of the first configured policy
with the given appId (the reduce stores it when creating the group). -/
def appNameOf (ps : List AccessPolicyConfig) (appId : String) : String :=
  ((ps.find? (fun p => p.appId == appId)).map (fun p => p.appName)).getD ""

/-- The distinct appIds of the configured policies in first-occurrence
order: the key order of the grouping object built by the reduce. -/
def appIdsIn : List AccessPolicyConfig → List String
  | [] => []
  | p :: ps => p.appId :: (appIdsIn ps).filter (fun a => !(a == p.appId))

/-- One app group of updateAccessPolicies: one policy listing per app; a
listing failure is caught and logged, contributing no results. -/
def appStep (env : AccessEnv) (accountId ipv4 : String)
    (ps : List AccessPolicyConfig) (appId : String) :
    List AccessUpdateResult × List NetCall :=
  let appName := appNameOf ps appId
  let groupPolicies := ps.filter (fun p => p.appId == appId)
  match env.listPolicies accountId appId with
  | .error _ => ([], [NetCall.listPolicies accountId appId])
  | .ok policies =>
    let inner := policiesLoop env accountId appId appName ipv4 policies groupPolicies
    (inner.1, NetCall.listPolicies accountId appId :: inner.2)

/-- The per-app loop of updateAccessPolicies over the grouped appIds. -/
def appsLoop (env : AccessEnv) (accountId ipv4 : String)
    (ps : List AccessPolicyConfig) :
    List String → List AccessUpdateResult × List NetCall
  | [] => ([], [])
  | a :: rest =>
    let step := appStep env accountId ipv4 ps a
    let tail := appsLoop env accountId ipv4 ps rest
    (step.1 ++ tail.1, step.2 ++ tail.2)

/-- updateAccessPolicies from updater.ts: returns an empty result set
when no configuration loads, the accessPolicies field is absent, or the
accountId is falsy; otherwise resolves the public IP (a network call),
skips with no results when IPv4 is unavailable, and otherwise processes
the policies grouped by app. Also returns the network calls issued. -/
def updateAccessPolicies (env : AccessEnv) (config? : Option Config) :
    List AccessUpdateResult × List NetCall :=
  match config? with
  | none => ([], [])
  | some config =>
    match config.accessPolicies with
    | none => ([], [])
    | some ps =>
      if !truthy config.accountId then ([], [])
      else
        let accountId := config.accountId.getD ""
        if truthy env.resolvedIPv4 then
          let ipv4 := env.resolvedIPv4.getD ""
          let inner := appsLoop env accountId ipv4 ps (appIdsIn ps)
          (inner.1, NetCall.resolveIPs :: inner.2)
        else ([], [NetCall.resolveIPs])

/-! ### updater.ts — presenter classification and monitoring loop -/

/-- DNS results counted as updated by the presenter. -/
def dnsUpdatedOf (rs : List UpdateResult) : List UpdateResult :=
  rs.filter (fun r => r.success && !(r.oldIP == r.newIP))

/-- DNS results counted as unchanged by the presenter. -/
def dnsUnchangedOf (rs : List UpdateResult) : List UpdateResult :=
  rs.filter (fun r => r.success && (r.oldIP == r.newIP))

/-- DNS results counted as failed by the presenter. -/
def dnsFailedOf (rs : List UpdateResult) : List UpdateResult :=
  rs.filter (fun r => !r.success)

/-- Access results counted as updated by the presenter. -/
def accessUpdatedOf (rs : List AccessUpdateResult) : List AccessUpdateResult :=
  rs.filter (fun r => r.success && !(r.oldIP == r.newIP))

/-- Access results counted as unchanged by the presenter. -/
def accessUnchangedOf (rs : List AccessUpdateResult) : List AccessUpdateResult :=
  rs.filter (fun r => r.success && (r.oldIP == r.newIP))

/-- Access results counted as failed by the presenter. -/
def accessFailedOf (rs : List AccessUpdateResult) : List AccessUpdateResult :=
  rs.filter (fun r => !r.success)

/-- The summary printed after each pass of the loop. -/
structure PassSummary where
  dnsUpdated : List UpdateResult
  dnsUnchanged : List UpdateResult
  dnsFailed : List UpdateResult
  accessUpdated : List AccessUpdateResult
  accessUnchanged : List AccessUpdateResult
  accessFailed : List AccessUpdateResult
deriving Repr, DecidableEq

/-- Classification of one pass's result sets into the printed summary. -/
def summarize (dns : List UpdateResult) (acc : List AccessUpdateResult) :
    PassSummary :=
  { dnsUpdated := dnsUpdatedOf dns, dnsUnchanged := dnsUnchangedOf dns
    dnsFailed := dnsFailedOf dns, accessUpdated := accessUpdatedOf acc
    accessUnchanged := accessUnchangedOf acc, accessFailed := accessFailedOf acc }

/-- One reconciliation pass of the loop: records then policies, then the
summary; propagates only the missing-configuration error of
updateDNSRecords. -/
def runPass (denv : DnsEnv) (aenv : AccessEnv) (config? : Option Config)
    (ipv4 ipv6 : Option String) : Except String PassSummary := do
  let dns ← updateDNSRecords denv config? ipv4 ipv6
  let access := updateAccessPolicies aenv config?
  pure (summarize dns.1 access.1)

/-- The while-loop of startUpdateLoop: one further pass per elapsed
interval tick until cancellation flips isRunning. -/
def passesLoop (denv : DnsEnv) (aenv : AccessEnv) (config? : Option Config)
    (ipv4 ipv6 : Option String) : Nat → Except String (List PassSummary)
  | 0 => .ok []
  | n + 1 => do
    let s ← runPass denv aenv config? ipv4 ipv6
    let rest ← passesLoop denv aenv config? ipv4 ipv6 n
    pure (s :: rest)

/-- startUpdateLoop from updater.ts: refuses to run without a
configuration, runs an initial pass, then one further pass per elapsed
interval tick until cancelled; the timer and key sampling are external, so
the number of ticks before cancellation is an input. -/
def startUpdateLoop (denv : DnsEnv) (aenv : AccessEnv) (config? : Option Config)
    (ipv4 ipv6 : Option String) (ticks : Nat) :
    Except String (List PassSummary) :=
  match config? with
  | none => .error "No configuration found"
  | some _ => do
    let first ← runPass denv aenv config? ipv4 ipv6
    let rest ← passesLoop denv aenv config? ipv4 ipv6 ticks
    pure (first :: rest)

/-! ### Concrete sample data for evaluating the model -/

/-- A sample A record whose content already matches the resolved IPv4. -/
def recA1 : DNSRecord :=
  { id := "r1", type := "A", name := "home.example.com", content := "2.2.2.2"
    proxied := false, ttl := 300 }

/-- A sample A record whose content is stale. -/
def recA2 : DNSRecord :=
  { id := "r2", type := "A", name := "vpn.example.com", content := "1.1.1.1"
    proxied := true, ttl := 1 }

/-- A sample AAAA record. -/
def recAAAA : DNSRecord :=
  { id := "r6", type := "AAAA", name := "home.example.com", content := "fd00::1"
    proxied := false, ttl := 300 }

/-- A sample configured zone selecting all three sample records. -/
def zoneW : ZoneConfig :=
  { zoneId := "z1", zoneName := "example.com"
    selectedRecordIds := ["r1", "r2", "r6"] }

/-- A sample configuration with one zone and no access policies. -/
def cfgW : Config := { apiKey := "key", zones := [zoneW] }

/-- A DNS environment where every listing and update succeeds. -/
def dnsEnvOk : DnsEnv :=
  { listA := fun _ => .ok [recA1, recA2], listAAAA := fun _ => .ok [recAAAA]
    update := fun _ => none }

/-- A DNS environment where updating record r2 throws an Error with
message "boom" and everything else succeeds. -/
def dnsEnvFailR2 : DnsEnv :=
  { listA := fun _ => .ok [recA1, recA2], listAAAA := fun _ => .ok [recAAAA]
    update := fun c => if c.recordId == "r2" then some (some "boom") else none }

/-- A DNS environment where updates throw an Error whose message is
empty. -/
def dnsEnvEmptyMsg : DnsEnv :=
  { listA := fun _ => .ok [recA2], listAAAA := fun _ => .ok []
    update := fun _ => some (some "") }

/-- A sample zone selecting only the AAAA record. -/
def zone6 : ZoneConfig :=
  { zoneId := "z1", zoneName := "example.com", selectedRecordIds := ["r6"] }

/-- A configuration with only the AAAA-selecting zone. -/
def cfg6 : Config := { apiKey := "key", zones := [zone6] }

/-- A zone whose record listing will fail in dnsEnv3. -/
def zoneBad : ZoneConfig :=
  { zoneId := "zBad", zoneName := "bad.example", selectedRecordIds := ["rX"] }

/-- A zone whose record listing succeeds in dnsEnv3. -/
def zoneGood : ZoneConfig :=
  { zoneId := "z1", zoneName := "example.com"
    selectedRecordIds := ["r1", "r2"] }

/-- A configuration with a failing zone followed by a healthy zone. -/
def cfg3 : Config := { apiKey := "key", zones := [zoneBad, zoneGood] }

/-- A DNS environment where listing zone zBad throws and updating r2
throws an Error with message "boom". -/
def dnsEnv3 : DnsEnv :=
  { listA := fun z =>
      if z == "zBad" then .error (some "listing down") else .ok [recA1, recA2]
    listAAAA := fun _ => .ok []
    update := fun c => if c.recordId == "r2" then some (some "boom") else none }

/-- A sample access policy holding one IP-literal include with a /32
suffix. -/
def polW : AccessPolicy :=
  { id := "p1", name := "Allow home", decision := .allow
    includeList := [{ ip := some "10.0.0.1/32" }] }

/-- The configured pointer to the sample policy. -/
def cpW : AccessPolicyConfig :=
  { appId := "app1", appName := "App One", policyId := "p1"
    policyName := "Allow home" }

/-- A configuration with an account id and one configured access policy. -/
def cfgPolW : Config :=
  { apiKey := "key", accountId := some "acct", zones := []
    accessPolicies := some [cpW] }

/-- A configuration with an account id and a present-but-empty access
policy list. -/
def cfgEmptyPolicies : Config :=
  { apiKey := "key", accountId := some "acct", zones := []
    accessPolicies := some [] }

/-- An access environment resolving IPv4 10.0.0.2 where every call
succeeds. -/
def accessEnvW : AccessEnv :=
  { resolvedIPv4 := some "10.0.0.2", listPolicies := fun _ _ => .ok [polW]
    update := fun _ => none }

/-- An access environment whose IPv4 resolution failed. -/
def accessEnvNoIp : AccessEnv :=
  { resolvedIPv4 := none, listPolicies := fun _ _ => .ok []
    update := fun _ => none }

/-- An access environment resolving IPv4 10.0.0.1, matching the sample
policy's include up to its /32 suffix. -/
def accessEnvSame : AccessEnv :=
  { resolvedIPv4 := some "10.0.0.1", listPolicies := fun _ _ => .ok [polW]
    update := fun _ => none }

/-- An access policy whose IP-literal include carries a trailing slash
with an empty CIDR suffix. -/
def polSlash : AccessPolicy :=
  { id := "p2", name := "Trailing slash", decision := .allow
    includeList := [{ ip := some "10.0.0.1/" }] }

/-- The configured pointer to the trailing-slash policy. -/
def cpSlash : AccessPolicyConfig :=
  { appId := "app1", appName := "App One", policyId := "p2"
    policyName := "Trailing slash" }

/-- A configuration selecting the trailing-slash policy. -/
def cfgSlash : Config :=
  { apiKey := "key", accountId := some "acct", zones := []
    accessPolicies := some [cpSlash] }

/-- An access environment resolving IPv4 10.0.0.1 and listing the
trailing-slash policy; every call succeeds. -/
def accessEnvSlash : AccessEnv :=
  { resolvedIPv4 := some "10.0.0.1", listPolicies := fun _ _ => .ok [polSlash]
    update := fun _ => none }

/-! ### Helper lemmas about the loops -/

theorem recordsLoop_fst (env : DnsEnv) (ipv4 ipv6 : Option String)
    (zone : ZoneConfig) (rs : List DNSRecord) :
    (recordsLoop env ipv4 ipv6 zone rs).1 =
      rs.map (fun r => (recordStep env ipv4 ipv6 zone r).1) := by
  induction rs with
  | nil => rfl
  | cons r rs ih => simp [recordsLoop, ih]

theorem recordsLoop_snd (env : DnsEnv) (ipv4 ipv6 : Option String)
    (zone : ZoneConfig) (rs : List DNSRecord) :
    (recordsLoop env ipv4 ipv6 zone rs).2 =
      (rs.map (fun r => (recordStep env ipv4 ipv6 zone r).2)).flatten := by
  induction rs with
  | nil => rfl
  | cons r rs ih => simp [recordsLoop, ih]

theorem zonesLoop_fst (env : DnsEnv) (ipv4 ipv6 : Option String)
    (zs : List ZoneConfig) :
    (zonesLoop env ipv4 ipv6 zs).1 =
      (zs.map (fun z => (zoneStep env ipv4 ipv6 z).1)).flatten := by
  induction zs with
  | nil => rfl
  | cons z zs ih => simp [zonesLoop, ih]

theorem zonesLoop_snd (env : DnsEnv) (ipv4 ipv6 : Option String)
    (zs : List ZoneConfig) :
    (zonesLoop env ipv4 ipv6 zs).2 =
      (zs.map (fun z => (zoneStep env ipv4 ipv6 z).2)).flatten := by
  induction zs with
  | nil => rfl
  | cons z zs ih => simp [zonesLoop, ih]

theorem zoneStep_ok (env : DnsEnv) (ipv4 ipv6 : Option String)
    (zone : ZoneConfig) (recs : List DNSRecord)
    (h : listBoth env zone.zoneId = .ok recs) :
    zoneStep env ipv4 ipv6 zone =
      recordsLoop env ipv4 ipv6 zone
        (recs.filter (fun r => zone.selectedRecordIds.contains r.id)) := by
  simp [zoneStep, h]

theorem mem_zonesLoop_fst (env : DnsEnv) (ipv4 ipv6 : Option String)
    (zs : List ZoneConfig) (z : ZoneConfig) (r : UpdateResult)
    (hz : z ∈ zs) (hr : r ∈ (zoneStep env ipv4 ipv6 z).1) :
    r ∈ (zonesLoop env ipv4 ipv6 zs).1 := by
  rw [zonesLoop_fst]
  exact List.mem_flatten.mpr ⟨_, List.mem_map_of_mem _ hz, hr⟩

theorem mem_zonesLoop_snd (env : DnsEnv) (ipv4 ipv6 : Option String)
    (zs : List ZoneConfig) (z : ZoneConfig) (c : UpdateCall)
    (hz : z ∈ zs) (hc : c ∈ (zoneStep env ipv4 ipv6 z).2) :
    c ∈ (zonesLoop env ipv4 ipv6 zs).2 := by
  rw [zonesLoop_snd]
  exact List.mem_flatten.mpr ⟨_, List.mem_map_of_mem _ hz, hc⟩

theorem policiesLoop_fst (env : AccessEnv) (accountId appId appName ipv4 : String)
    (policies : List AccessPolicy) (cps : List AccessPolicyConfig) :
    (policiesLoop env accountId appId appName ipv4 policies cps).1 =
      cps.map (fun cp => (policyStep env accountId appId appName ipv4 policies cp).1) := by
  induction cps with
  | nil => rfl
  | cons cp cps ih => simp [policiesLoop, ih]

theorem policiesLoop_snd (env : AccessEnv) (accountId appId appName ipv4 : String)
    (policies : List AccessPolicy) (cps : List AccessPolicyConfig) :
    (policiesLoop env accountId appId appName ipv4 policies cps).2 =
      (cps.map (fun cp => (policyStep env accountId appId appName ipv4 policies cp).2)).flatten := by
  induction cps with
  | nil => rfl
  | cons cp cps ih => simp [policiesLoop, ih]

theorem appsLoop_fst (env : AccessEnv) (accountId ipv4 : String)
    (ps : List AccessPolicyConfig) (ids : List String) :
    (appsLoop env accountId ipv4 ps ids).1 =
      (ids.map (fun a => (appStep env accountId ipv4 ps a).1)).flatten := by
  induction ids with
  | nil => rfl
  | cons a ids ih => simp [appsLoop, ih]

theorem appsLoop_snd (env : AccessEnv) (accountId ipv4 : String)
    (ps : List AccessPolicyConfig) (ids : List String) :
    (appsLoop env accountId ipv4 ps ids).2 =
      (ids.map (fun a => (appStep env accountId ipv4 ps a).2)).flatten := by
  induction ids with
  | nil => rfl
  | cons a ids ih => simp [appsLoop, ih]

theorem mem_appIdsIn (ps : List AccessPolicyConfig) (p : AccessPolicyConfig)
    (hp : p ∈ ps) : p.appId ∈ appIdsIn ps := by
  induction ps with
  | nil => cases hp
  | cons q qs ih =>
    rcases List.mem_cons.mp hp with h | h
    · subst h; exact List.mem_cons_self _ _
    · by_cases he : p.appId = q.appId
      · rw [appIdsIn, he]; exact List.mem_cons_self _ _
      · refine List.mem_cons_of_mem _ (List.mem_filter.mpr ⟨ih h, ?_⟩)
        simp [he]

/-! ### Helper lemmas about the string helpers -/

theorem charIn_append (c : Char) (l₁ l₂ : List Char) :
    charIn c (l₁ ++ l₂) = (charIn c l₁ || charIn c l₂) := by
  induction l₁ with
  | nil => rfl
  | cons x xs ih => simp [charIn, ih, Bool.or_assoc]

theorem splitCharAux_no_sep (c : Char) (l : List Char) (cur : List Char)
    (h : charIn c l = false) :
    splitCharAux c l cur = [cur.reverse ++ l] := by
  induction l generalizing cur with
  | nil => simp [splitCharAux]
  | cons x xs ih =>
    rw [charIn, Bool.or_eq_false_iff] at h
    simp [splitCharAux, h.1, ih _ h.2]

theorem splitCharAux_sep (c : Char) (l₁ l₂ : List Char) (cur : List Char)
    (h : charIn c l₁ = false) :
    splitCharAux c (l₁ ++ c :: l₂) cur =
      (cur.reverse ++ l₁) :: splitCharAux c l₂ [] := by
  induction l₁ generalizing cur with
  | nil => simp [splitCharAux]
  | cons x xs ih =>
    rw [charIn, Bool.or_eq_false_iff] at h
    simp [splitCharAux, h.1, ih _ h.2]

theorem data_append (a b : String) : (a ++ b).data = a.data ++ b.data := by
  cases a; cases b; rfl

theorem mk_data (s : String) : String.mk s.data = s := by
  cases s; rfl

theorem cidr_data (base suffix : String) :
    (base ++ "/" ++ suffix).data = base.data ++ '/' :: suffix.data := by
  rw [data_append, data_append]
  simp

theorem cidr_ne_empty (base suffix : String) : base ++ "/" ++ suffix ≠ "" := by
  intro h
  have hd := congrArg String.data h
  rw [cidr_data] at hd
  simp at hd

theorem jsSplit_pair (base suffix : String)
    (hb : charIn '/' base.data = false) (hs : charIn '/' suffix.data = false) :
    jsSplit (base ++ "/" ++ suffix) '/' = [base, suffix] := by
  rw [jsSplit, cidr_data, splitCharAux_sep _ _ _ _ hb, splitCharAux_no_sep _ _ _ hs]
  simp [mk_data]

theorem jsSplit_single (s : String) (h : charIn '/' s.data = false) :
    jsSplit s '/' = [s] := by
  rw [jsSplit, splitCharAux_no_sep _ _ _ h]
  simp [mk_data]

theorem jsIncludes_pair (base suffix : String) :
    jsIncludes (base ++ "/" ++ suffix) '/' = true := by
  rw [jsIncludes, cidr_data, charIn_append]
  simp [charIn]

theorem normalizeIp_single (s : String) (h : charIn '/' s.data = false)
    (hne : s ≠ "") : normalizeIp (some s) = some s := by
  simp [normalizeIp, hne, jsSplit_single s h]

theorem normalizeIp_pair (base suffix : String)
    (hb : charIn '/' base.data = false) (hs : charIn '/' suffix.data = false) :
    normalizeIp (some (base ++ "/" ++ suffix)) = some base := by
  simp [normalizeIp, cidr_ne_empty base suffix, jsSplit_pair base suffix hb hs]

/-! ### Helper lemmas about candidate selection and the record step -/

theorem candidateIP_of_family (ipv4 ipv6 : Option String) (record : DNSRecord)
    (v : String) (hv : v ≠ "")
    (hfam : (record.type = "A" ∧ ipv4 = some v) ∨
            (record.type = "AAAA" ∧ ipv6 = some v)) :
    candidateIP ipv4 ipv6 record = some v := by
  rcases hfam with ⟨ht, h4⟩ | ⟨ht, h6⟩
  · simp [candidateIP, ht, h4, truthy, hv]
  · simp [candidateIP, ht, h6, truthy, hv]

theorem candidateIP_type (ipv4 ipv6 : Option String) (record : DNSRecord)
    (v : String) (h : candidateIP ipv4 ipv6 record = some v) :
    record.type = "A" ∨ record.type = "AAAA" := by
  rw [candidateIP] at h
  split at h
  · rename_i hg
    rw [Bool.and_eq_true] at hg
    exact Or.inl (by simpa using hg.1)
  · split at h
    · rename_i hg
      rw [Bool.and_eq_true] at hg
      exact Or.inr (by simpa using hg.1)
    · cases h

theorem recordStep_changed_calls (env : DnsEnv) (ipv4 ipv6 : Option String)
    (zone : ZoneConfig) (record : DNSRecord) (v : String)
    (hcand : candidateIP ipv4 ipv6 record = some v)
    (hne : record.content ≠ v) :
    (recordStep env ipv4 ipv6 zone record).2 =
      [{ zoneId := zone.zoneId, recordId := record.id, content := v
         name := record.name, type := record.type, proxied := record.proxied
         ttl := record.ttl }] := by
  rw [recordStep]
  simp only [hcand, hne, beq_iff_eq, if_false]
  split <;> rfl

theorem zoneStep_fst_eq (env : DnsEnv) (ipv4 ipv6 : Option String)
    (z : ZoneConfig) :
    (zoneStep env ipv4 ipv6 z).1 =
      match listBoth env z.zoneId with
      | .error _ => []
      | .ok recs =>
        (recs.filter (fun r => z.selectedRecordIds.contains r.id)).map
          (fun r => (recordStep env ipv4 ipv6 z r).1) := by
  cases h : listBoth env z.zoneId <;> simp [zoneStep, h, recordsLoop_fst]

theorem mem_recordsLoop_snd (env : DnsEnv) (ipv4 ipv6 : Option String)
    (zone : ZoneConfig) (rs : List DNSRecord) (r : DNSRecord) (c : UpdateCall)
    (hr : r ∈ rs) (hc : c ∈ (recordStep env ipv4 ipv6 zone r).2) :
    c ∈ (recordsLoop env ipv4 ipv6 zone rs).2 := by
  rw [recordsLoop_snd]
  exact List.mem_flatten.mpr ⟨_, List.mem_map_of_mem _ hr, hc⟩

theorem recordStep_unchanged (env : DnsEnv) (ipv4 ipv6 : Option String)
    (zone : ZoneConfig) (record : DNSRecord) (v : String)
    (hcand : candidateIP ipv4 ipv6 record = some v)
    (hcontent : record.content = v) :
    recordStep env ipv4 ipv6 zone record =
      ({ zoneId := zone.zoneId, zoneName := zone.zoneName, recordId := record.id
         recordName := record.name, oldIP := v, newIP := v
         success := true, error := none }, []) := by
  simp [recordStep, hcand, hcontent]

/-! ### Claim theorems -/

/-- C1: every configured record whose observed content string-equals the
resolved IP of its address family is emitted by the reconciliation pass as
a success result with oldIP equal to newIP equal to the current content,
and its processing issues zero update calls to the provider. -/
theorem C1_idempotent_unchanged (env : DnsEnv) (config : Config)
    (ipv4 ipv6 : Option String) (zone : ZoneConfig) (record : DNSRecord)
    (recs : List DNSRecord) (v : String)
    (hzone : zone ∈ config.zones)
    (hlist : listBoth env zone.zoneId = .ok recs)
    (hmem : record ∈ recs)
    (hsel : zone.selectedRecordIds.contains record.id = true)
    (hfam : (record.type = "A" ∧ ipv4 = some v) ∨
            (record.type = "AAAA" ∧ ipv6 = some v))
    (hv : v ≠ "") (hcontent : record.content = v) :
    recordStep env ipv4 ipv6 zone record =
      ({ zoneId := zone.zoneId, zoneName := zone.zoneName, recordId := record.id
         recordName := record.name, oldIP := v, newIP := v
         success := true, error := none }, []) ∧
    ∃ out, updateDNSRecords env (some config) ipv4 ipv6 = .ok out ∧
      ({ zoneId := zone.zoneId, zoneName := zone.zoneName, recordId := record.id
         recordName := record.name, oldIP := v, newIP := v
         success := true, error := none } : UpdateResult) ∈ out.1 := by
  have hcand := candidateIP_of_family ipv4 ipv6 record v hv hfam
  have hstep := recordStep_unchanged env ipv4 ipv6 zone record v hcand hcontent
  refine ⟨hstep, ⟨zonesLoop env ipv4 ipv6 config.zones, rfl, ?_⟩⟩
  apply mem_zonesLoop_fst env ipv4 ipv6 config.zones zone _ hzone
  rw [zoneStep_ok env ipv4 ipv6 zone recs hlist, recordsLoop_fst]
  refine List.mem_map.mpr ⟨record, List.mem_filter.mpr ⟨hmem, hsel⟩, ?_⟩
  rw [hstep]

/-- Witness for C1 at a concrete input: record r1 already holds the
resolved IPv4 2.2.2.2, so the pass reports it unchanged with no provider
call. -/
theorem C1_witness :
    recordStep dnsEnvOk (some "2.2.2.2") (some "fd00::1") zoneW recA1 =
      ({ zoneId := "z1", zoneName := "example.com", recordId := "r1"
         recordName := "home.example.com", oldIP := "2.2.2.2", newIP := "2.2.2.2"
         success := true, error := none }, []) ∧
    ∃ out, updateDNSRecords dnsEnvOk (some cfgW) (some "2.2.2.2") (some "fd00::1") =
        .ok out ∧
      ({ zoneId := "z1", zoneName := "example.com", recordId := "r1"
         recordName := "home.example.com", oldIP := "2.2.2.2", newIP := "2.2.2.2"
         success := true, error := none } : UpdateResult) ∈ out.1 :=
  C1_idempotent_unchanged dnsEnvOk cfgW (some "2.2.2.2") (some "fd00::1")
    zoneW recA1 [recA1, recA2, recAAAA] "2.2.2.2"
    (by decide) rfl (by decide) (by decide)
    (Or.inl ⟨rfl, rfl⟩) (by decide) rfl

/-- C7: for every record whose content differs from the resolved
candidate, the single update call issued carries the record's existing
name, proxied flag and TTL unchanged, with only the content replaced by
the new IP; and the provider client forwards exactly those fields,
attaching the proxied flag because the type is A or AAAA. -/
theorem C7_update_preserves_fields (env : DnsEnv) (ipv4 ipv6 : Option String)
    (zone : ZoneConfig) (record : DNSRecord) (v : String)
    (hcand : candidateIP ipv4 ipv6 record = some v)
    (hne : record.content ≠ v) :
    (recordStep env ipv4 ipv6 zone record).2 =
      [{ zoneId := zone.zoneId, recordId := record.id, content := v
         name := record.name, type := record.type, proxied := record.proxied
         ttl := record.ttl }] ∧
    buildDNSUpdateParams zone.zoneId v record.name record.type record.proxied
        record.ttl =
      { zoneId := zone.zoneId, type := record.type, name := record.name
        content := v, ttl := record.ttl, proxied := some record.proxied } := by
  constructor
  · exact recordStep_changed_calls env ipv4 ipv6 zone record v hcand hne
  · rcases candidateIP_type ipv4 ipv6 record v hcand with ht | ht <;>
      simp [buildDNSUpdateParams, ht]

/-- Witness for C7 at a concrete input: updating the stale record r2 to
2.2.2.2 issues one call keeping name vpn.example.com, proxied true and
TTL 1. -/
theorem C7_witness :
    (recordStep dnsEnvOk (some "2.2.2.2") (some "fd00::1") zoneW recA2).2 =
      [{ zoneId := "z1", recordId := "r2", content := "2.2.2.2"
         name := "vpn.example.com", type := "A", proxied := true, ttl := 1 }] ∧
    buildDNSUpdateParams "z1" "2.2.2.2" "vpn.example.com" "A" true 1 =
      { zoneId := "z1", type := "A", name := "vpn.example.com"
        content := "2.2.2.2", ttl := 1, proxied := some true } :=
  C7_update_preserves_fields dnsEnvOk (some "2.2.2.2") (some "fd00::1")
    zoneW recA2 "2.2.2.2" (by decide) (by decide)

/-- C8: getPublicIPs is a total function of the two lookup outcomes (it
never throws); a failed lookup yields undefined for its family, and each
family's result is unaffected by the other lookup's outcome. -/
theorem C8_resolver_isolation (lookup4 lookup6 : Except String String) :
    (∀ e, lookup4 = .error e → (getPublicIPs lookup4 lookup6).ipv4 = none) ∧
    (∀ e, lookup6 = .error e → (getPublicIPs lookup4 lookup6).ipv6 = none) ∧
    (∀ other : Except String String,
      (getPublicIPs lookup4 lookup6).ipv4 = (getPublicIPs lookup4 other).ipv4) ∧
    (∀ other : Except String String,
      (getPublicIPs lookup4 lookup6).ipv6 = (getPublicIPs other lookup6).ipv6) := by
  refine ⟨?_, ?_, fun _ => rfl, fun _ => rfl⟩ <;> rintro e rfl <;> rfl

/-- Witness for C8 at a concrete input: a failed IPv4 lookup yields an
undefined ipv4 while the IPv6 result is unaffected. -/
theorem C8_witness :
    (getPublicIPs (.error "timeout") (.ok "fd00::1")).ipv4 = none :=
  (C8_resolver_isolation (.error "timeout") (.ok "fd00::1")).1 "timeout" rfl

theorem passesLoop_ok (denv : DnsEnv) (aenv : AccessEnv) (config : Config)
    (ipv4 ipv6 : Option String) (n : Nat) :
    ∃ summaries, passesLoop denv aenv (some config) ipv4 ipv6 n = .ok summaries := by
  induction n with
  | zero => exact ⟨[], rfl⟩
  | succ n ih =>
    obtain ⟨ss, hss⟩ := ih
    exact ⟨_, by rw [passesLoop, hss]; rfl⟩

/-- C5: without a configuration, both the record reconciliation pass and
the monitoring loop start fail with the explicit error "No configuration
found"; with any configuration present, both return a result instead of
that error. -/
theorem C5_config_absence (denv : DnsEnv) (aenv : AccessEnv)
    (ipv4 ipv6 : Option String) (ticks : Nat) :
    updateDNSRecords denv none ipv4 ipv6 = .error "No configuration found" ∧
    startUpdateLoop denv aenv none ipv4 ipv6 ticks =
      .error "No configuration found" ∧
    ∀ config : Config,
      (∃ out, updateDNSRecords denv (some config) ipv4 ipv6 = .ok out) ∧
      (∃ summaries,
        startUpdateLoop denv aenv (some config) ipv4 ipv6 ticks = .ok summaries) := by
  refine ⟨rfl, rfl, fun config => ⟨⟨_, rfl⟩, ?_⟩⟩
  obtain ⟨ss, hss⟩ := passesLoop_ok denv aenv config ipv4 ipv6 ticks
  exact ⟨_, by rw [startUpdateLoop]; rw [show runPass denv aenv (some config) ipv4 ipv6 =
    .ok (summarize (zonesLoop denv ipv4 ipv6 config.zones).1
      (updateAccessPolicies aenv (some config)).1) from rfl, hss]; rfl⟩

/-- C3: a record reconciliation pass with a configuration present always
returns a result array; its results decompose zone by zone, a zone whose
listing threw contributing nothing while every other zone contributes the
results of each of its selected records independently; and a record whose
update call threw an Error gets a failed result carrying that error's
message without affecting any sibling's entry in the decomposition. -/
theorem C3_failure_isolation (env : DnsEnv) (config : Config)
    (ipv4 ipv6 : Option String) :
    updateDNSRecords env (some config) ipv4 ipv6 =
      .ok (zonesLoop env ipv4 ipv6 config.zones) ∧
    (zonesLoop env ipv4 ipv6 config.zones).1 =
      (config.zones.map (fun z =>
        match listBoth env z.zoneId with
        | .error _ => []
        | .ok recs =>
          (recs.filter (fun r => z.selectedRecordIds.contains r.id)).map
            (fun r => (recordStep env ipv4 ipv6 z r).1))).flatten ∧
    ∀ zone record v m,
      candidateIP ipv4 ipv6 record = some v → record.content ≠ v →
      env.update { zoneId := zone.zoneId, recordId := record.id, content := v
                   name := record.name, type := record.type
                   proxied := record.proxied, ttl := record.ttl } =
        some (some m) →
      (recordStep env ipv4 ipv6 zone record).1 =
        { zoneId := zone.zoneId, zoneName := zone.zoneName
          recordId := record.id, recordName := record.name
          oldIP := record.content, newIP := v, success := false
          error := some m } := by
  refine ⟨rfl, ?_, ?_⟩
  · have hf : (fun z => (zoneStep env ipv4 ipv6 z).1) =
        (fun z : ZoneConfig =>
          match listBoth env z.zoneId with
          | .error _ => []
          | .ok recs =>
            (recs.filter (fun r => z.selectedRecordIds.contains r.id)).map
              (fun r => (recordStep env ipv4 ipv6 z r).1)) :=
      funext (zoneStep_fst_eq env ipv4 ipv6)
    rw [zonesLoop_fst, hf]
  · intro zone record v m hcand hne hu
    simp [recordStep, hcand, hne, hu, errMessage]

/-- Witness for C3 at a concrete input: zone zBad's listing throws and
updating r2 throws "boom", yet the pass returns normally and r2's result
is a failure carrying "boom". -/
theorem C3_witness :
    updateDNSRecords dnsEnv3 (some cfg3) (some "2.2.2.2") none =
      .ok (zonesLoop dnsEnv3 (some "2.2.2.2") none cfg3.zones) ∧
    (recordStep dnsEnv3 (some "2.2.2.2") none zoneGood recA2).1 =
      { zoneId := "z1", zoneName := "example.com", recordId := "r2"
        recordName := "vpn.example.com", oldIP := "1.1.1.1", newIP := "2.2.2.2"
        success := false, error := some "boom" } :=
  ⟨(C3_failure_isolation dnsEnv3 cfg3 (some "2.2.2.2") none).1,
   (C3_failure_isolation dnsEnv3 cfg3 (some "2.2.2.2") none).2.2
     zoneGood recA2 "2.2.2.2" "boom" (by decide) (by decide) (by decide)⟩

/-- C4 (amended): in a pass where IPv4 resolved and IPv6 did not, every
selected AAAA record yields a failed result with error "No IPv6 address
available" (capital N, as the code emits) and no provider call, while
every selected A record whose content differs has its update call with
the resolved IPv4 issued in the same pass. -/
theorem C4_family_isolation (env : DnsEnv) (config : Config)
    (ipv6 : Option String) (v : String) (zone : ZoneConfig)
    (record : DNSRecord) (recs : List DNSRecord)
    (hzone : zone ∈ config.zones)
    (hlist : listBoth env zone.zoneId = .ok recs)
    (hmem : record ∈ recs)
    (hsel : zone.selectedRecordIds.contains record.id = true)
    (h6 : truthy ipv6 = false) (hv : v ≠ "") :
    (record.type = "AAAA" →
      recordStep env (some v) ipv6 zone record =
        ({ zoneId := zone.zoneId, zoneName := zone.zoneName
           recordId := record.id, recordName := record.name
           oldIP := record.content, newIP := record.content, success := false
           error := some "No IPv6 address available" }, []) ∧
      ∃ out, updateDNSRecords env (some config) (some v) ipv6 = .ok out ∧
        ({ zoneId := zone.zoneId, zoneName := zone.zoneName
           recordId := record.id, recordName := record.name
           oldIP := record.content, newIP := record.content, success := false
           error := some "No IPv6 address available" } : UpdateResult) ∈ out.1) ∧
    (record.type = "A" → record.content ≠ v →
      (recordStep env (some v) ipv6 zone record).2 =
        [{ zoneId := zone.zoneId, recordId := record.id, content := v
           name := record.name, type := record.type, proxied := record.proxied
           ttl := record.ttl }] ∧
      ∃ out, updateDNSRecords env (some config) (some v) ipv6 = .ok out ∧
        ({ zoneId := zone.zoneId, recordId := record.id, content := v
           name := record.name, type := record.type, proxied := record.proxied
           ttl := record.ttl } : UpdateCall) ∈ out.2) := by
  constructor
  · intro ht
    have hcand : candidateIP (some v) ipv6 record = none := by
      simp [candidateIP, ht, h6]
    have hmsg : "No " ++ (if record.type == "A" then "IPv4" else "IPv6")
        ++ " address available" = "No IPv6 address available" := by
      rw [ht]
      rfl
    have hstep : recordStep env (some v) ipv6 zone record =
        ({ zoneId := zone.zoneId, zoneName := zone.zoneName
           recordId := record.id, recordName := record.name
           oldIP := record.content, newIP := record.content, success := false
           error := some "No IPv6 address available" }, []) := by
      rw [recordStep]
      simp only [hcand]
      rw [hmsg]
    refine ⟨hstep, ⟨zonesLoop env (some v) ipv6 config.zones, rfl, ?_⟩⟩
    apply mem_zonesLoop_fst env (some v) ipv6 config.zones zone _ hzone
    rw [zoneStep_ok env (some v) ipv6 zone recs hlist, recordsLoop_fst]
    refine List.mem_map.mpr ⟨record, List.mem_filter.mpr ⟨hmem, hsel⟩, ?_⟩
    rw [hstep]
  · intro ht hne
    have hcand : candidateIP (some v) ipv6 record = some v := by
      simp [candidateIP, ht, truthy, hv]
    have hcalls := recordStep_changed_calls env (some v) ipv6 zone record v hcand hne
    refine ⟨hcalls, ⟨zonesLoop env (some v) ipv6 config.zones, rfl, ?_⟩⟩
    apply mem_zonesLoop_snd env (some v) ipv6 config.zones zone _ hzone
    rw [zoneStep_ok env (some v) ipv6 zone recs hlist]
    apply mem_recordsLoop_snd env (some v) ipv6 zone _ record _
      (List.mem_filter.mpr ⟨hmem, hsel⟩)
    rw [hcalls]
    exact List.mem_singleton.mpr rfl

/-- Counterexample to C4 as stated: at this concrete input the AAAA
record's failed result carries the error string "No IPv6 address
available", not the claimed "no IPv6 address available". -/
theorem C4_counterexample :
    updateDNSRecords dnsEnvOk (some cfg6) (some "2.2.2.2") none =
      .ok ([{ zoneId := "z1", zoneName := "example.com", recordId := "r6"
              recordName := "home.example.com", oldIP := "fd00::1"
              newIP := "fd00::1", success := false
              error := some "No IPv6 address available" }], []) ∧
    some "No IPv6 address available" ≠ some "no IPv6 address available" := by
  exact ⟨rfl, by decide⟩

/-- Witness for the amended C4 at a concrete input: with IPv4 2.2.2.2 and
no IPv6, the AAAA record r6 fails with "No IPv6 address available" and
appears in the pass results. -/
theorem C4_witness :
    recordStep dnsEnvOk (some "2.2.2.2") none zoneW recAAAA =
      ({ zoneId := "z1", zoneName := "example.com", recordId := "r6"
         recordName := "home.example.com", oldIP := "fd00::1", newIP := "fd00::1"
         success := false, error := some "No IPv6 address available" }, []) ∧
    ∃ out, updateDNSRecords dnsEnvOk (some cfgW) (some "2.2.2.2") none = .ok out ∧
      ({ zoneId := "z1", zoneName := "example.com", recordId := "r6"
         recordName := "home.example.com", oldIP := "fd00::1", newIP := "fd00::1"
         success := false, error := some "No IPv6 address available" } :
        UpdateResult) ∈ out.1 :=
  (C4_family_isolation dnsEnvOk cfgW none "2.2.2.2" zoneW recAAAA
    [recA1, recA2, recAAAA] (by decide) rfl (by decide) (by decide) rfl
    (by decide)).1 rfl

/-! ### Helper lemmas about the access pass -/

theorem appStep_ok (env : AccessEnv) (accountId ipv4 : String)
    (ps : List AccessPolicyConfig) (appId : String)
    (policies : List AccessPolicy)
    (h : env.listPolicies accountId appId = .ok policies) :
    appStep env accountId ipv4 ps appId =
      ((policiesLoop env accountId appId (appNameOf ps appId) ipv4 policies
          (ps.filter (fun p => p.appId == appId))).1,
       NetCall.listPolicies accountId appId ::
         (policiesLoop env accountId appId (appNameOf ps appId) ipv4 policies
           (ps.filter (fun p => p.appId == appId))).2) := by
  simp [appStep, h]

theorem mem_appsLoop_fst (env : AccessEnv) (accountId ipv4 : String)
    (ps : List AccessPolicyConfig) (ids : List String) (a : String)
    (r : AccessUpdateResult) (ha : a ∈ ids)
    (hr : r ∈ (appStep env accountId ipv4 ps a).1) :
    r ∈ (appsLoop env accountId ipv4 ps ids).1 := by
  rw [appsLoop_fst]
  exact List.mem_flatten.mpr ⟨_, List.mem_map_of_mem _ ha, hr⟩

theorem mem_appsLoop_snd (env : AccessEnv) (accountId ipv4 : String)
    (ps : List AccessPolicyConfig) (ids : List String) (a : String)
    (c : NetCall) (ha : a ∈ ids)
    (hc : c ∈ (appStep env accountId ipv4 ps a).2) :
    c ∈ (appsLoop env accountId ipv4 ps ids).2 := by
  rw [appsLoop_snd]
  exact List.mem_flatten.mpr ⟨_, List.mem_map_of_mem _ ha, hc⟩

theorem mem_policiesLoop_fst (env : AccessEnv)
    (accountId appId appName ipv4 : String) (policies : List AccessPolicy)
    (cps : List AccessPolicyConfig) (cp : AccessPolicyConfig)
    (r : AccessUpdateResult) (hcp : cp ∈ cps)
    (hr : r ∈ (policyStep env accountId appId appName ipv4 policies cp).1 :: []) :
    r ∈ (policiesLoop env accountId appId appName ipv4 policies cps).1 := by
  rw [policiesLoop_fst]
  rcases List.mem_singleton.mp hr with rfl
  exact List.mem_map.mpr ⟨cp, hcp, rfl⟩

theorem mem_policiesLoop_snd (env : AccessEnv)
    (accountId appId appName ipv4 : String) (policies : List AccessPolicy)
    (cps : List AccessPolicyConfig) (cp : AccessPolicyConfig) (c : NetCall)
    (hcp : cp ∈ cps)
    (hc : c ∈ (policyStep env accountId appId appName ipv4 policies cp).2) :
    c ∈ (policiesLoop env accountId appId appName ipv4 policies cps).2 := by
  rw [policiesLoop_snd]
  exact List.mem_flatten.mpr ⟨_, List.mem_map_of_mem _ hcp, hc⟩

theorem updateAccessPolicies_eq_run (env : AccessEnv) (config : Config)
    (acct ipv4 : String) (ps : List AccessPolicyConfig)
    (hacct : config.accountId = some acct) (hacctne : acct ≠ "")
    (hps : config.accessPolicies = some ps)
    (hip : env.resolvedIPv4 = some ipv4) (hipne : ipv4 ≠ "") :
    updateAccessPolicies env (some config) =
      ((appsLoop env acct ipv4 ps (appIdsIn ps)).1,
       NetCall.resolveIPs :: (appsLoop env acct ipv4 ps (appIdsIn ps)).2) := by
  simp [updateAccessPolicies, hps, hacct, hip, truthy, hacctne, hipne]

/-- C6 (amended): for every configuration that lacks an accountId or
whose accessPolicies field is absent (and when no configuration loads at
all), updateAccessPolicies returns an empty result set immediately and
issues zero network calls — no IP resolution, no listing, no update — and
raises no error. -/
theorem C6_policy_noop (env : AccessEnv) (config? : Option Config)
    (h : config? = none ∨ ∃ config, config? = some config ∧
      (config.accessPolicies = none ∨ truthy config.accountId = false)) :
    updateAccessPolicies env config? = ([], []) := by
  rcases h with rfl | ⟨config, rfl, h | h⟩
  · rfl
  · simp [updateAccessPolicies, h]
  · cases hap : config.accessPolicies <;> simp [updateAccessPolicies, hap, h]

/-- Witness for C6 at a concrete input: a configuration with neither an
accountId nor an accessPolicies field yields no results and no network
calls. -/
theorem C6_witness :
    updateAccessPolicies accessEnvW (some { apiKey := "key" }) = ([], []) :=
  C6_policy_noop accessEnvW (some { apiKey := "key" })
    (Or.inr ⟨{ apiKey := "key" }, rfl, Or.inl rfl⟩)

/-- Counterexample to C6 as stated: a configuration with an accountId and
a present-but-empty accessPolicies list has no configured access
policies, yet the pass still issues the IP-resolution network call (the
guard only checks field presence), so the network-call list is not
empty. -/
theorem C6_counterexample :
    updateAccessPolicies accessEnvNoIp (some cfgEmptyPolicies) =
      ([], [NetCall.resolveIPs]) ∧
    ([NetCall.resolveIPs] : List NetCall) ≠ ([] : List NetCall) :=
  ⟨rfl, by decide⟩

theorem policyStep_changed_cidr (env : AccessEnv)
    (accountId appId appName ipv4 base suffix : String)
    (policies : List AccessPolicy) (configPolicy : AccessPolicyConfig)
    (policy : AccessPolicy)
    (hfind : policies.find? (fun p => p.id == configPolicy.policyId) = some policy)
    (hraw : firstIpInclude policy.includeList = some (base ++ "/" ++ suffix))
    (hbne : base ≠ "") (hbns : charIn '/' base.data = false)
    (hsne : suffix ≠ "") (hsns : charIn '/' suffix.data = false)
    (h4ne : ipv4 ≠ "") (h4ns : charIn '/' ipv4.data = false)
    (hdiff : base ≠ ipv4) :
    (policyStep env accountId appId appName ipv4 policies configPolicy).2 =
      [NetCall.updatePolicy accountId appId policy.id (ipv4 ++ "/" ++ suffix)] := by
  have hrne : ((base ++ "/" ++ suffix) == "") = false :=
    beq_eq_false_iff_ne.mpr (cidr_ne_empty base suffix)
  have hbeq : (base == ipv4) = false := beq_eq_false_iff_ne.mpr hdiff
  have hbemp : (base == "") = false := beq_eq_false_iff_ne.mpr hbne
  have h4emp : (ipv4 == "") = false := beq_eq_false_iff_ne.mpr h4ne
  have hsemp : (suffix == "") = false := beq_eq_false_iff_ne.mpr hsne
  rw [policyStep]
  simp only [hfind, hraw, normalizeIp_pair base suffix hbns hsns,
    normalizeIp_single ipv4 h4ns h4ne, jsIncludes_pair,
    jsSplit_pair base suffix hbns hsns, Option.getD_some, truthy,
    hrne, hbeq, hbemp, h4emp, hsemp, Bool.not_false, Bool.and_false,
    Bool.true_and, Bool.and_true, if_true, if_false,
    List.getD_cons_succ, List.getD_cons_zero]
  split
  · rename_i hcontra
    exact absurd hcontra (by decide)
  · split <;> rfl

/-- C2: for every configured access policy whose current IP-literal
include carries a CIDR suffix, when the current and candidate IPs differ
after the suffix is stripped, the policy reconciliation issues exactly
one update call submitting the candidate with the current value's suffix
re-attached, and that call appears among the network calls of
updateAccessPolicies. -/
theorem C2_cidr_preserving_update (env : AccessEnv) (config : Config)
    (acct ipv4 base suffix : String) (ps : List AccessPolicyConfig)
    (configPolicy : AccessPolicyConfig) (policies : List AccessPolicy)
    (policy : AccessPolicy)
    (hacct : config.accountId = some acct) (hacctne : acct ≠ "")
    (hps : config.accessPolicies = some ps) (hmemc : configPolicy ∈ ps)
    (hip : env.resolvedIPv4 = some ipv4) (h4ne : ipv4 ≠ "")
    (h4ns : charIn '/' ipv4.data = false)
    (hlist : env.listPolicies acct configPolicy.appId = .ok policies)
    (hfind : policies.find? (fun p => p.id == configPolicy.policyId) = some policy)
    (hraw : firstIpInclude policy.includeList = some (base ++ "/" ++ suffix))
    (hbne : base ≠ "") (hbns : charIn '/' base.data = false)
    (hsne : suffix ≠ "") (hsns : charIn '/' suffix.data = false)
    (hdiff : base ≠ ipv4) :
    (∀ appName,
      (policyStep env acct configPolicy.appId appName ipv4 policies
        configPolicy).2 =
      [NetCall.updatePolicy acct configPolicy.appId policy.id
        (ipv4 ++ "/" ++ suffix)]) ∧
    NetCall.updatePolicy acct configPolicy.appId policy.id (ipv4 ++ "/" ++ suffix)
      ∈ (updateAccessPolicies env (some config)).2 := by
  have hcall := fun appName => policyStep_changed_cidr env acct configPolicy.appId
    appName ipv4 base suffix policies configPolicy policy hfind hraw hbne hbns
    hsne hsns h4ne h4ns hdiff
  refine ⟨hcall, ?_⟩
  rw [updateAccessPolicies_eq_run env config acct ipv4 ps hacct hacctne hps hip h4ne]
  apply List.mem_cons_of_mem
  apply mem_appsLoop_snd env acct ipv4 ps _ configPolicy.appId _
    (mem_appIdsIn ps configPolicy hmemc)
  rw [appStep_ok env acct ipv4 ps configPolicy.appId policies hlist]
  apply List.mem_cons_of_mem
  apply mem_policiesLoop_snd env acct configPolicy.appId
    (appNameOf ps configPolicy.appId) ipv4 policies _ configPolicy _
    (List.mem_filter.mpr ⟨hmemc, by simp⟩)
  rw [hcall (appNameOf ps configPolicy.appId)]
  exact List.mem_singleton.mpr rfl

/-- Witness for C2 at a concrete input: current include 10.0.0.1/32 and
resolved IPv4 10.0.0.2 submit exactly 10.0.0.2/32 as an update. -/
theorem C2_witness :
    NetCall.updatePolicy "acct" "app1" "p1" ("10.0.0.2" ++ "/" ++ "32")
      ∈ (updateAccessPolicies accessEnvW (some cfgPolW)).2 ∧
    "10.0.0.2" ++ "/" ++ "32" = "10.0.0.2/32" :=
  ⟨(C2_cidr_preserving_update accessEnvW cfgPolW "acct" "10.0.0.2" "10.0.0.1"
      "32" [cpW] cpW [polW] polW rfl (by decide) rfl (by decide) rfl
      (by decide) (by decide) rfl rfl rfl (by decide) (by decide) (by decide)
      (by decide) (by decide)).2,
   rfl⟩

/-- C10 (amended): for every policy whose current include is well-formed
— the candidate itself, or the candidate followed by one non-empty
slash-free CIDR suffix — and hence equal to the candidate after CIDR
normalization, the emitted success result has oldIP exactly equal to
newIP, so the presenter's classification counts it as unchanged and never
as an update. (For malformed normalization-equal currents such as a
trailing slash, the suffix re-attachment does not reproduce the current
value and the success result is counted as an update: see the
counterexample below.) -/
theorem C10_normalization_no_spurious_update (env : AccessEnv)
    (accountId appId appName ipv4 suffix r : String)
    (policies : List AccessPolicy) (configPolicy : AccessPolicyConfig)
    (policy : AccessPolicy)
    (hfind : policies.find? (fun p => p.id == configPolicy.policyId) = some policy)
    (hraw : firstIpInclude policy.includeList = some r)
    (h4ne : ipv4 ≠ "") (h4ns : charIn '/' ipv4.data = false)
    (hsne : suffix ≠ "") (hsns : charIn '/' suffix.data = false)
    (hshape : r = ipv4 ∨ r = ipv4 ++ "/" ++ suffix) :
    policyStep env accountId appId appName ipv4 policies configPolicy =
      ({ appId := appId, appName := appName, policyId := policy.id
         policyName := policy.name, oldIP := r, newIP := r
         success := true, error := none }, []) ∧
    ∀ rs : List AccessUpdateResult,
      (policyStep env accountId appId appName ipv4 policies configPolicy).1 ∈ rs →
      (policyStep env accountId appId appName ipv4 policies configPolicy).1
        ∈ accessUnchangedOf rs ∧
      (policyStep env accountId appId appName ipv4 policies configPolicy).1
        ∉ accessUpdatedOf rs := by
  have h4emp : (ipv4 == "") = false := beq_eq_false_iff_ne.mpr h4ne
  have h1 : policyStep env accountId appId appName ipv4 policies configPolicy =
      ({ appId := appId, appName := appName, policyId := policy.id
         policyName := policy.name, oldIP := r, newIP := r
         success := true, error := none }, []) := by
    rcases hshape with rfl | rfl
    · have hj : jsIncludes r '/' = false := h4ns
      rw [policyStep]
      simp [hfind, hraw, normalizeIp_single r h4ns h4ne, Option.getD_some,
        truthy, h4emp, hj, Bool.not_false, Bool.and_false, Bool.true_and,
        Bool.and_true, Bool.and_self, beq_self_eq_true, if_true, if_false]
    · have hrne : ((ipv4 ++ "/" ++ suffix) == "") = false :=
        beq_eq_false_iff_ne.mpr (cidr_ne_empty ipv4 suffix)
      have hsemp : (suffix == "") = false := beq_eq_false_iff_ne.mpr hsne
      rw [policyStep]
      simp only [hfind, hraw, normalizeIp_pair ipv4 suffix h4ns hsns,
        normalizeIp_single ipv4 h4ns h4ne, jsIncludes_pair,
        jsSplit_pair ipv4 suffix h4ns hsns, Option.getD_some, truthy,
        hrne, hsemp, h4emp, Bool.not_false, Bool.true_and, Bool.and_true,
        Bool.and_self, beq_self_eq_true, if_true, if_false,
        List.getD_cons_succ, List.getD_cons_zero]
  refine ⟨h1, fun rs hmem => ⟨List.mem_filter.mpr ⟨hmem, by rw [h1]; simp⟩, ?_⟩⟩
  intro hmem'
  have hpred := (List.mem_filter.mp hmem').2
  rw [h1] at hpred
  simp at hpred

/-- Witness for C10 at a concrete input: current include 10.0.0.1/32 and
resolved IPv4 10.0.0.1 yield a success result with oldIP and newIP both
10.0.0.1/32, classified as unchanged and not as updated. -/
theorem C10_witness :
    policyStep accessEnvSame "acct" "app1" "App One" "10.0.0.1" [polW] cpW =
      ({ appId := "app1", appName := "App One", policyId := "p1"
         policyName := "Allow home", oldIP := "10.0.0.1/32"
         newIP := "10.0.0.1/32", success := true, error := none }, []) ∧
    (policyStep accessEnvSame "acct" "app1" "App One" "10.0.0.1" [polW] cpW).1
      ∈ accessUnchangedOf
        [(policyStep accessEnvSame "acct" "app1" "App One" "10.0.0.1" [polW] cpW).1] ∧
    (policyStep accessEnvSame "acct" "app1" "App One" "10.0.0.1" [polW] cpW).1
      ∉ accessUpdatedOf
        [(policyStep accessEnvSame "acct" "app1" "App One" "10.0.0.1" [polW] cpW).1] := by
  have h := C10_normalization_no_spurious_update accessEnvSame "acct" "app1"
    "App One" "10.0.0.1" "32" ("10.0.0.1" ++ "/" ++ "32") [polW] cpW polW
    rfl rfl (by decide) (by decide) (by decide) (by decide) (Or.inr rfl)
  exact ⟨h.1, h.2 [(policyStep accessEnvSame "acct" "app1" "App One" "10.0.0.1"
    [polW] cpW).1] (List.mem_singleton.mpr rfl)⟩

/-- Counterexample to C10 as stated: the current include "10.0.0.1/" and
the candidate "10.0.0.1" are equal after CIDR normalization, yet the pass
emits a success result with oldIP "10.0.0.1/" different from newIP
"10.0.0.1" (the empty suffix is falsy, so nothing is re-attached), and
the presenter's updated classification counts exactly that result. -/
theorem C10_counterexample :
    (updateAccessPolicies accessEnvSlash (some cfgSlash)).1 =
      [{ appId := "app1", appName := "App One", policyId := "p2"
         policyName := "Trailing slash", oldIP := "10.0.0.1/"
         newIP := "10.0.0.1", success := true, error := none }] ∧
    normalizeIp (some "10.0.0.1/") = normalizeIp (some "10.0.0.1") ∧
    accessUpdatedOf (updateAccessPolicies accessEnvSlash (some cfgSlash)).1 =
      [{ appId := "app1", appName := "App One", policyId := "p2"
         policyName := "Trailing slash", oldIP := "10.0.0.1/"
         newIP := "10.0.0.1", success := true, error := none }] :=
  ⟨rfl, rfl, rfl⟩

/-! ### Helper lemmas classifying failure cases -/

theorem recordStep_result_cases (env : DnsEnv) (ipv4 ipv6 : Option String)
    (zone : ZoneConfig) (record : DNSRecord) :
    (recordStep env ipv4 ipv6 zone record).1.success = true ∨
    (recordStep env ipv4 ipv6 zone record).1.error =
      some "No IPv4 address available" ∨
    (recordStep env ipv4 ipv6 zone record).1.error =
      some "No IPv6 address available" ∨
    ∃ c t, env.update c = some t ∧
      (recordStep env ipv4 ipv6 zone record).1.error = some (errMessage t) := by
  rw [recordStep]
  cases hc : candidateIP ipv4 ipv6 record with
  | none =>
    simp only [hc]
    cases ht : record.type == "A"
    · right; right; left
      rfl
    · right; left
      rfl
  | some v =>
    simp only [hc]
    split
    · left; rfl
    · split
      · left; rfl
      · rename_i t ht
        right; right; right
        exact ⟨_, t, ht, rfl⟩

theorem recordStep_failed_message (env : DnsEnv) (ipv4 ipv6 : Option String)
    (zone : ZoneConfig) (record : DNSRecord)
    (hd : ∀ c t, env.update c = some t → errMessage t ≠ "")
    (hfail : (recordStep env ipv4 ipv6 zone record).1.success = false) :
    ∃ m, (recordStep env ipv4 ipv6 zone record).1.error = some m ∧ m ≠ "" := by
  rcases recordStep_result_cases env ipv4 ipv6 zone record with
    h | h | h | ⟨c, t, hc, h⟩
  · rw [h] at hfail; cases hfail
  · exact ⟨_, h, by decide⟩
  · exact ⟨_, h, by decide⟩
  · exact ⟨_, h, hd c t hc⟩

theorem policyStep_result_cases (env : AccessEnv)
    (accountId appId appName ipv4 : String) (policies : List AccessPolicy)
    (cp : AccessPolicyConfig) :
    (policyStep env accountId appId appName ipv4 policies cp).1.success = true ∨
    (policyStep env accountId appId appName ipv4 policies cp).1.error =
      some "Policy not found" ∨
    ∃ q t, env.update q = some t ∧
      (policyStep env accountId appId appName ipv4 policies cp).1.error =
        some (errMessage t) := by
  rw [policyStep]
  cases hf : policies.find? (fun p => p.id == cp.policyId) with
  | none =>
    right; left; rfl
  | some policy =>
    simp only [hf]
    split
    · left; rfl
    · split
      · left; rfl
      · rename_i t ht
        right; right
        exact ⟨_, t, ht, rfl⟩

theorem policyStep_failed_message (env : AccessEnv)
    (accountId appId appName ipv4 : String) (policies : List AccessPolicy)
    (cp : AccessPolicyConfig)
    (ha : ∀ q t, env.update q = some t → errMessage t ≠ "")
    (hfail :
      (policyStep env accountId appId appName ipv4 policies cp).1.success = false) :
    ∃ m, (policyStep env accountId appId appName ipv4 policies cp).1.error =
      some m ∧ m ≠ "" := by
  rcases policyStep_result_cases env accountId appId appName ipv4 policies cp with
    h | h | ⟨q, t, hq, h⟩
  · rw [h] at hfail; cases hfail
  · exact ⟨_, h, by decide⟩
  · exact ⟨_, h, ha q t hq⟩

theorem zonesLoop_failed_message (env : DnsEnv) (ipv4 ipv6 : Option String)
    (zs : List ZoneConfig)
    (hd : ∀ c t, env.update c = some t → errMessage t ≠ "") :
    ∀ r ∈ (zonesLoop env ipv4 ipv6 zs).1, r.success = false →
      ∃ m, r.error = some m ∧ m ≠ "" := by
  intro r hr hfail
  rw [zonesLoop_fst] at hr
  obtain ⟨l, hl, hrl⟩ := List.mem_flatten.mp hr
  obtain ⟨z, hz, rfl⟩ := List.mem_map.mp hl
  rw [zoneStep_fst_eq] at hrl
  cases hlb : listBoth env z.zoneId with
  | error e => rw [hlb] at hrl; cases hrl
  | ok recs =>
    rw [hlb] at hrl
    obtain ⟨record, hrec, rfl⟩ := List.mem_map.mp hrl
    exact recordStep_failed_message env ipv4 ipv6 z record hd hfail

theorem accessLoop_failed_message (env : AccessEnv) (accountId ipv4 : String)
    (ps : List AccessPolicyConfig) (ids : List String)
    (ha : ∀ q t, env.update q = some t → errMessage t ≠ "") :
    ∀ r ∈ (appsLoop env accountId ipv4 ps ids).1, r.success = false →
      ∃ m, r.error = some m ∧ m ≠ "" := by
  intro r hr hfail
  rw [appsLoop_fst] at hr
  obtain ⟨l, hl, hrl⟩ := List.mem_flatten.mp hr
  obtain ⟨a, haid, rfl⟩ := List.mem_map.mp hl
  rw [appStep] at hrl
  cases hlb : env.listPolicies accountId a with
  | error e => rw [hlb] at hrl; cases hrl
  | ok policies =>
    rw [hlb] at hrl
    simp only at hrl
    rw [policiesLoop_fst] at hrl
    obtain ⟨cp, hcp, rfl⟩ := List.mem_map.mp hrl
    exact policyStep_failed_message env accountId a (appNameOf ps a) ipv4
      policies cp ha hfail

/-- C9 (amended): every failed result of a pass carries a defined error
message, and the message is non-empty whenever every thrown update error
carries a non-empty message (the fixed skip and missing-policy messages
are non-empty constants; a caught update error's message is passed
through verbatim, so an Error thrown with an empty message yields a
defined but empty error string). -/
theorem C9_failed_results_carry_message (denv : DnsEnv) (aenv : AccessEnv)
    (config? : Option Config) (ipv4 ipv6 : Option String)
    (hd : ∀ c t, denv.update c = some t → errMessage t ≠ "")
    (ha : ∀ q t, aenv.update q = some t → errMessage t ≠ "") :
    (∀ out, updateDNSRecords denv config? ipv4 ipv6 = .ok out →
      ∀ r ∈ out.1, r.success = false → ∃ m, r.error = some m ∧ m ≠ "") ∧
    (∀ r ∈ (updateAccessPolicies aenv config?).1, r.success = false →
      ∃ m, r.error = some m ∧ m ≠ "") := by
  constructor
  · intro out hout r hr hfail
    cases config? with
    | none => cases hout
    | some config =>
      simp only [updateDNSRecords] at hout
      injection hout with h
      subst h
      exact zonesLoop_failed_message denv ipv4 ipv6 config.zones hd r hr hfail
  · intro r hr hfail
    cases config? with
    | none => cases hr
    | some config =>
      simp only [updateAccessPolicies] at hr
      cases hap : config.accessPolicies with
      | none => rw [hap] at hr; cases hr
      | some ps =>
        rw [hap] at hr
        cases hacct : truthy config.accountId
        · rw [hacct] at hr
          simp at hr
        · rw [hacct] at hr
          simp only [Bool.not_true] at hr
          cases hip : truthy aenv.resolvedIPv4
          · rw [hip] at hr
            simp at hr
          · rw [hip] at hr
            simp only [if_true] at hr
            exact accessLoop_failed_message aenv (config.accountId.getD "")
              (aenv.resolvedIPv4.getD "") ps (appIdsIn ps) ha r
              (by simpa using hr) hfail

/-- Witness for the amended C9 at a concrete input: the failed result for
r2 (whose update threw "boom") carries the non-empty message "boom". -/
theorem C9_witness :
    ∃ m, ({ zoneId := "z1", zoneName := "example.com", recordId := "r2"
            recordName := "vpn.example.com", oldIP := "1.1.1.1"
            newIP := "2.2.2.2", success := false, error := some "boom" } :
          UpdateResult).error = some m ∧ m ≠ "" :=
  (C9_failed_results_carry_message dnsEnvFailR2 accessEnvW (some cfgW)
    (some "2.2.2.2") none
    (fun c t h => by
      simp only [dnsEnvFailR2] at h
      split at h
      · injection h with h2
        subst h2
        decide
      · cases h)
    (fun q t h => by simp [accessEnvW] at h)).1
    (zonesLoop dnsEnvFailR2 (some "2.2.2.2") none cfgW.zones) rfl
    { zoneId := "z1", zoneName := "example.com", recordId := "r2"
      recordName := "vpn.example.com", oldIP := "1.1.1.1", newIP := "2.2.2.2"
      success := false, error := some "boom" }
    (by decide) rfl

/-- Counterexample to C9 as stated: an update call that throws an Error
whose message is empty yields a failed result whose error is defined but
empty, so "non-empty" does not hold unconditionally. -/
theorem C9_counterexample :
    updateDNSRecords dnsEnvEmptyMsg (some cfgW) (some "2.2.2.2") none =
      .ok ([{ zoneId := "z1", zoneName := "example.com", recordId := "r2"
              recordName := "vpn.example.com", oldIP := "1.1.1.1"
              newIP := "2.2.2.2", success := false, error := some "" }],
           [{ zoneId := "z1", recordId := "r2", content := "2.2.2.2"
              name := "vpn.example.com", type := "A", proxied := true
              ttl := 1 }]) := by
  rfl

end Updater
